import Mathlib

/-!
Shallow embedding of the core of the `trumania` data generator
(`src/datagenerator/action.py`, `src/datagenerator/random_generators.py`),
with theorems checking the natural-language specification against it.

Conventions of the embedding:
* pandas `DataFrame`s become association lists that keep the row order
  (the order matters: `ActorAction.get_param` pairs rows positionally);
* in-place mutation becomes explicit state passing on `ActorAction`;
* a Python exception becomes an `Except`/error value;
* concrete numpy distributions are out of scope of the spec ("treated as
  opaque samplers"), so a sampler is an explicit function; the only
  nondeterministic input, OS entropy used by an *unseeded* `RandomState`,
  is threaded as an explicit `entropy : Nat → Rat` stream.
-/

/-- Actor identifiers: stable opaque ids (`triggering_actor.ids`). -/
abbrev ActorId := Nat

/-- One row of `ActorAction.timer`: current state and remaining ticks of one
actor (`action.py` line 61, columns `state` and `remaining`). -/
structure TimerRow where
  state : String
  remaining : Int
deriving DecidableEq, Repr

/-- The timer table `ActorAction.timer`: one `(actor id, row)` pair per actor,
in the order of `triggering_actor.ids`. -/
abbrev TimerTbl := List (ActorId × TimerRow)

/-- An independent sampler: `generate(size)` returns `size` values
(`random_generators.py`, class `Generator`). Its randomness is internal and
fixed at construction, hence a plain function here. -/
structure IndepGen where
  sample : Nat → List Rat

/-- Embedding of `ConstantGenerator` (`random_generators.py` lines 80-86):
`generate(size)` returns `[value] * size`. -/
def ConstantGenerator (value : Rat) : IndepGen :=
  { sample := fun size => List.replicate size value }

/-- An independent sampler whose draw for a population is the given value
list, positionally (generators are opaque per the spec; this instantiates one
with prescribed per-actor output, as `generate(size)` takes `size` values). -/
def fromListGen (vals : List Rat) : IndepGen :=
  { sample := fun size => vals.take size }

/-- A timer sampler: `generate(weights)` returns one remaining-ticks count per
weight. Modelled from the spec: time profilers are "opaque *weighted time
samplers* that emit next-fire counts given activity weights" (`clock.py` is
not under `src/`). -/
structure TimerGen where
  sample : List Rat → List Int

/-- Modelled from the spec: `ConstantProfiler` (`clock.py`, not under `src/`)
is the default `timer_gen` of `ActorAction.__init__` (`action.py` line 12,
`ConstantProfiler(-1)`); as a constant profiler it emits its constant value
for each activity weight, so that with `-1` "the timer never triggers this
action" (`action.py` lines 33-35). -/
def ConstantProfiler (value : Int) : TimerGen :=
  { sample := fun weights => weights.map (fun _ => value) }

/-- Embedding of `NumpyRandomGenerator` (`random_generators.py` lines 89-109)
for the uniform method. Modelled from the spec: numpy distributions are
opaque samplers; what the embedding keeps is that `RandomState(seed)` with
`seed = some s` is a deterministic function of `s`, while `seed = none`
(Python `None`) draws from OS entropy at runtime. -/
structure NumpyRandomGenerator where
  method : String
  seed : Option Nat
deriving DecidableEq, Repr

/-- Deterministic stand-in for a seeded uniform draw stream (numpy internals
are opaque; only determinism in the seed matters). -/
def prngUniform (s i : Nat) : Rat :=
  (((s + 1) * 69069 + i * 1013904223) % 1000003 : Nat) / 1000003

/-- The draw stream of a `NumpyRandomGenerator` for the uniform method: a
seeded generator depends only on its seed; an unseeded one reads the ambient
OS `entropy` stream. -/
def NumpyRandomGenerator.generate (g : NumpyRandomGenerator) (entropy : Nat → Rat)
    (size : Nat) : List Rat :=
  match g.seed with
  | some s => (List.range size).map (fun i => prngUniform s i)
  | none => (List.range size).map entropy

/-- Embedding of `seed_provider` (`random_generators.py` lines 5-13): a
stream of child seeds `state.randint(1, 2**31 - 1)` deterministically
derived from the master seed (`RandomState(master_seed)` modelled by the
deterministic `prngUniform`-based stream). -/
def seed_provider (master_seed : Nat) : Nat → Nat :=
  fun i => (((master_seed + 1) * 69069 + i * 1013904223) % (2 ^ 31 - 2)) + 1

/-- A pipeline frame (`action_data`): a pandas `DataFrame` with a row index of
actor ids and named columns; a cell is `none` for NA. -/
structure Frame where
  index : List ActorId
  cols : List (String × List (Option ActorId))
deriving DecidableEq, Repr

/-- The values of a named column (`action_data[field]`); `[]` if absent. -/
def Frame.colVals (f : Frame) (name : String) : List (Option ActorId) :=
  ((f.cols.find? (fun p => p.1 == name)).map Prod.snd).getD []

/-- `action_data[field].dropna().values`: the non-null values of a column. -/
def Frame.colDropna (f : Frame) (name : String) : List ActorId :=
  (f.colVals name).filterMap id

/-- The initial accumulator frame of `execute` (`init = [(None, {})]`,
`action.py` line 156); `WhoActsNow` ignores its input. -/
def emptyFrame : Frame := { index := [], cols := [] }

/-- The log bag: a Python dict from log name to emitted frame. -/
abbrev Logs := List (String × Frame)

/-- Modelled from the spec: `merge_dicts` (`util_functions.py`, not under
`src/`) merges log dicts; the union of the key sets, entries of the second
dict winning on a common key. -/
def merge_dicts (d1 d2 : Logs) : Logs :=
  d1.filter (fun p => d2.all (fun q => q.1 != p.1)) ++ d2

/-- The distinct log names of a bag (`all_logs.keys()`). -/
def logKeys (lg : Logs) : List String :=
  (lg.map Prod.fst).eraseDups

/-- Per-state generators, as the values of the `states` dict of
`ActorAction.__init__`: an activity sampler and a back-to-normal-probability
sampler (`action.py` lines 48-51). -/
structure StateGens where
  activity : IndepGen
  back_to_normal_probability : IndepGen

/-- Modelled from the spec: `merge_2_dicts` (`util_functions.py`, not under
`src/`) merges two dicts, entries of the second winning on a common key. -/
def merge_2_dicts (d1 d2 : List (String × StateGens)) : List (String × StateGens) :=
  d1.filter (fun p => d2.all (fun q => q.1 != p.1)) ++ d2

/-- A pipeline stage of an `ActorAction`. The built-in stages are embedded by
name; a user-supplied operation is an opaque function from the frame and the
(mutable) timer table to the new frame, its emitted logs and the new timer
table — covering column-producing, side-effect and log-emitting operations
(the `Operation` base classes live in `operations.py`, not under `src/`;
their contract is modelled from the spec, section 4.3). -/
inductive PipeOp where
  | whoActsNow
  | user (f : Frame → TimerTbl → (Frame × Logs × TimerTbl))
  | resetTimersOp (actor_id_field : Option String)
  | maybeBackToNormalOp

/-- The state of one `ActorAction` (`action.py` lines 7-68): identification,
the parameter table `params` (keyed by `(param_name, state)` with one value
per actor, positionally in `ids` order), the timer table, the timer
generator, the internal back-to-normal judge, and the assembled pipeline. -/
structure ActorAction where
  name : String
  ids : List ActorId
  actoridFieldName : String
  params : List ((String × String) × List Rat)
  timer : TimerTbl
  time_generator : TimerGen
  judge : NumpyRandomGenerator
  operations : List PipeOp

/-- Value of `params[(param_name, state)]` for one actor: positional lookup
of the actor in `ids` (a pandas column keyed by the actor index). -/
def ActorAction.paramAt (a : ActorAction) (param_name state : String) (id : ActorId) : Rat :=
  (((a.params.find? (fun p => p.1 == (param_name, state))).map Prod.snd).getD []).getD
    (a.ids.indexOf id) 0

/-- Embedding of `ActorAction.get_param` (`action.py` lines 70-83). Exactly
as the source: `activity_idx = zip(ids, self.timer["state"])` pairs the
requested ids positionally with the state column of *all* actors, then looks
up `params.loc[ids][param_name].stack()[activity_idx]`. -/
def ActorAction.get_param (a : ActorAction) (param_name : String) (ids : List ActorId) :
    List (ActorId × Rat) :=
  let activity_idx := ids.zip (a.timer.map (fun p => p.2.state))
  activity_idx.map (fun pr => (pr.1, a.paramAt param_name pr.2 pr.1))

/-- Embedding of `ActorAction.who_acts_now` (`action.py` lines 95-99):
`self.timer[self.timer["remaining"] == 0].index`. -/
def ActorAction.who_acts_now (a : ActorAction) : List ActorId :=
  (a.timer.filter (fun p => p.2.remaining == 0)).map Prod.fst

/-- Embedding of `ActorAction.timer_tick` (`action.py` lines 101-105):
decrement `remaining` of the rows where `remaining > 0`; other rows are not
touched (the `len(positive_idx) > 0` guard is a no-op). -/
def ActorAction.timer_tick (a : ActorAction) : ActorAction :=
  { a with timer := a.timer.map (fun p =>
      if p.2.remaining > 0 then (p.1, { p.2 with remaining := p.2.remaining - 1 }) else p) }

/-- Embedding of `ActorAction.force_act_next` (`action.py` lines 107-114):
`if len(ids) > 0: self.timer.loc[ids, "remaining"] = 0`. -/
def ActorAction.force_act_next (a : ActorAction) (ids : List ActorId) : ActorAction :=
  if ids.length > 0 then
    { a with timer := a.timer.map (fun p =>
        if ids.contains p.1 then (p.1, { p.2 with remaining := 0 }) else p) }
  else a

/-- Label-wise assignment `timer.loc[ids, "remaining"] = vals`, the values
paired positionally with the ids. -/
def assignRemaining (timer : TimerTbl) (ids : List ActorId) (vals : List Int) : TimerTbl :=
  (ids.zip vals).foldl
    (fun t pr => t.map (fun p =>
      if p.1 == pr.1 then (p.1, { p.2 with remaining := pr.2 }) else p))
    timer

/-- Embedding of `ActorAction.reset_timers` (`action.py` lines 116-136):
default `ids=None` means the whole index; when non-empty, draw
`time_generator.generate(weights=get_param("activity", ids))` and assign. -/
def ActorAction.reset_timers (a : ActorAction) (optIds : Option (List ActorId)) : ActorAction :=
  let ids := optIds.getD (a.timer.map Prod.fst)
  if ids.length > 0 then
    let weights := (a.get_param "activity" ids).map Prod.snd
    let new_timer := a.time_generator.sample weights
    { a with timer := assignRemaining a.timer ids new_timer }
  else a

/-- Embedding of `ActorAction.transit_to_state` (`action.py` lines 88-93):
`self.timer.loc[ids, "state"] = states`, values paired positionally. -/
def ActorAction.transit_to_state (a : ActorAction) (ids : List ActorId) (states : List String) :
    ActorAction :=
  let t2 := (ids.zip states).foldl
    (fun t pr => t.map (fun p =>
      if p.1 == pr.1 then (p.1, { p.2 with state := pr.2 }) else p))
    a.timer
  { a with timer := t2 }

/-- Embedding of `ActorAction.__init__` (`action.py` lines 8-68): fill the
parameter table for `normal` plus the declared states, initialise every
actor's state to `"normal"`, reset all timers, and assemble the pipeline
`[WhoActsNow] + operations + [ResetTimers, _MaybeBackToNormal]`. The
back-to-normal judge is the `NumpyRandomGenerator(method="uniform")` that
`_MaybeBackToNormal.__init__` creates with no seed (`action.py` line 258). -/
def mkActorAction (name : String) (triggering_ids : List ActorId) (actorid_field : String)
    (operations : List PipeOp) (activity : IndepGen) (states : List (String × StateGens))
    (timer_gen : TimerGen) : ActorAction :=
  let size := triggering_ids.length
  let params0 : List ((String × String) × List Rat) :=
    [(("normal", "activity"), List.replicate size 0)]
  let normal_state : List (String × StateGens) :=
    [("normal", { activity := activity, back_to_normal_probability := ConstantGenerator 1 })]
  let params := (merge_2_dicts normal_state states).foldl
    (fun ps pr =>
      ps ++ [(("activity", pr.1), pr.2.activity.sample size),
             (("back_to_normal_probability", pr.1), pr.2.back_to_normal_probability.sample size)])
    params0
  let a0 : ActorAction := {
    name := name
    ids := triggering_ids
    actoridFieldName := actorid_field
    params := params
    timer := triggering_ids.map (fun id => (id, { state := "normal", remaining := 0 }))
    time_generator := timer_gen
    judge := { method := "uniform", seed := none }
    operations := [] }
  let a1 := a0.reset_timers none
  { a1 with operations :=
      [PipeOp.whoActsNow] ++ operations ++ [PipeOp.resetTimersOp none, PipeOp.maybeBackToNormalOp] }

/-- The default-argument form of the constructor (`activity` defaults to
`ConstantGenerator(value=1.)`, `states` to `None`, `timer_gen` to
`ConstantProfiler(-1)`, `action.py` lines 11-12). -/
def mkActorActionDefault (name : String) (triggering_ids : List ActorId)
    (actorid_field : String) (operations : List PipeOp) : ActorAction :=
  mkActorAction name triggering_ids actorid_field operations
    (ConstantGenerator 1) [] (ConstantProfiler (-1))

/-- Embedding of `ActorAction.WhoActsNow.transform` (`action.py` lines
183-191): build a one-column frame from `who_acts_now()`, the column named
`actorid_field_name`, and `set_index(..., drop=False)` keeping the ids as the
row index; the input frame is ignored. -/
def whoActsNow_transform (a : ActorAction) (_ignored_input : Frame) : Frame :=
  let ids := a.who_acts_now
  { index := ids, cols := [(a.actoridFieldName, ids.map some)] }

/-- Embedding of `ActionOps.ForceActNext.side_effect` (`action.py` lines
199-204): when the frame has rows, force the non-null ids of the addressed
column to act next. -/
def forceActNext_side_effect (a : ActorAction) (active_ids_field : String)
    (action_data : Frame) : ActorAction :=
  if action_data.index.length > 0 then
    a.force_act_next (action_data.colDropna active_ids_field)
  else a

/-- Embedding of `ActionOps.ResetTimers.side_effect` (`action.py` lines
221-227): with no field configured, reset the ids of the frame's index;
otherwise the unique non-null values of the addressed column. -/
def resetTimers_side_effect (a : ActorAction) (actor_id_field : Option String)
    (action_data : Frame) : ActorAction :=
  match actor_id_field with
  | none => a.reset_timers (some action_data.index)
  | some fld => a.reset_timers (some ((action_data.colDropna fld).eraseDups))

/-- The Python errors the embedded code can raise. -/
inductive PyError where
  | typeErrorUnexpectedKeyword
  | notImplementedMultipleLogs
  | valueErrorSampleTooLarge
deriving DecidableEq, Repr

/-- Embedding of `ActionOps._MaybeBackToNormal.side_effect` (`action.py`
lines 261-278): restrict the timer table to the acting rows, keep the actors
whose state is not `"normal"`; if none, return. Otherwise draw
`back_prob = get_param("back_to_normal_probability", non_normal_ids)` and a
uniform `baseline`, select the ids with `back_prob > baseline` — and then
call `self.action.transit_to_state(ids=actor_ids, state=state)`: the
parameter of `transit_to_state` is named `states` (`action.py` line 88), so
Python raises `TypeError: unexpected keyword argument` at this point instead
of performing the transition. -/
def maybeBackToNormal_side_effect (a : ActorAction) (entropy : Nat → Rat)
    (action_data : Frame) : Except PyError ActorAction :=
  let active_timer := action_data.index.filterMap
    (fun id => (a.timer.find? (fun p => p.1 == id)).map (fun p => (id, p.2)))
  let non_normal_ids := (active_timer.filter (fun p => p.2.state != "normal")).map Prod.fst
  if non_normal_ids.length = 0 then
    .ok a
  else
    let back_prob := a.get_param "back_to_normal_probability" non_normal_ids
    let baseline := a.judge.generate entropy back_prob.length
    let actor_ids := ((back_prob.zip baseline).filter (fun pr => pr.1.2 > pr.2)).map
      (fun pr => pr.1.1)
    let _ := actor_ids
    .error PyError.typeErrorUnexpectedKeyword

/-- One step of `ActorAction.execute_operation` (`action.py` lines 138-151):
run the operation on the frame and merge its logs with the accumulated bag.
Side-effect-only operations return the frame unchanged with empty logs
(`operations.py` is not under `src/`; that contract is modelled from the
spec, section 4.3). On a raise, the action state reached so far is kept. -/
def stepOp (entropy : Nat → Rat) (fr : Frame) (lg : Logs) (a : ActorAction) :
    PipeOp → (Except PyError (Frame × Logs)) × ActorAction
  | PipeOp.whoActsNow => (.ok (whoActsNow_transform a fr, merge_dicts lg []), a)
  | PipeOp.user f =>
    let r := f fr a.timer
    (.ok (r.1, merge_dicts lg r.2.1), { a with timer := r.2.2 })
  | PipeOp.resetTimersOp fld =>
    (.ok (fr, merge_dicts lg []), resetTimers_side_effect a fld fr)
  | PipeOp.maybeBackToNormalOp =>
    match maybeBackToNormal_side_effect a entropy fr with
    | .ok a2 => (.ok (fr, merge_dicts lg []), a2)
    | .error err => (.error err, a)

/-- The fold `reduce(self.execute_operation, init + self.operations)`
(`action.py` line 158), with the frame, log bag and action state threaded; a
raised error aborts the fold. -/
def runPipeline (entropy : Nat → Rat) :
    List PipeOp → Frame → Logs → ActorAction → (Except PyError (Frame × Logs)) × ActorAction
  | [], fr, lg, a => (.ok (fr, lg), a)
  | op :: rest, fr, lg, a =>
    match stepOp entropy fr lg a op with
    | (.ok (fr2, lg2), a2) => runPipeline entropy rest fr2 lg2 a2
    | (.error err, a2) => (.error err, a2)

/-- What `ActorAction.execute` returns on success: an empty frame when no
logs were emitted, the log bag otherwise. -/
inductive ExecuteResult where
  | emptyFrame
  | logBag (logs : Logs)
deriving DecidableEq, Repr

/-- Embedding of `ActorAction.execute` (`action.py` lines 153-169): fold the
pipeline from `(None, {})`, call `timer_tick`, then return an empty frame if
no log name was collected, raise if more than one distinct name was, and
return the bag otherwise (the source's `raise NotImplemented(...)` — itself
ill-formed Python, but an error in any case). -/
def executePost (rp : (Except PyError (Frame × Logs)) × ActorAction) :
    (Except PyError ExecuteResult) × ActorAction :=
  match rp with
  | (.error err, a1) => (.error err, a1)
  | (.ok (_, all_logs), a1) =>
    if (logKeys all_logs).length == 0 then (.ok ExecuteResult.emptyFrame, a1.timer_tick)
    else if (logKeys all_logs).length > 1 then
      (.error PyError.notImplementedMultipleLogs, a1.timer_tick)
    else (.ok (ExecuteResult.logBag all_logs), a1.timer_tick)

/-- The whole of `ActorAction.execute`: the fold then the post-processing. -/
def ActorAction.execute (a : ActorAction) (entropy : Nat → Rat) :
    (Except PyError ExecuteResult) × ActorAction :=
  executePost (runPipeline entropy a.operations emptyFrame [] a)

/-- Little-endian decimal digits with explicit fuel (so that the definition
is structural and evaluates inside the kernel); agrees with `Nat.digits 10`
once the fuel dominates the number. -/
def digitsLE : Nat → Nat → List Nat
  | 0, _ => []
  | fuel + 1, n => if n = 0 then [] else n % 10 :: digitsLE fuel (n / 10)

/-- The little-endian decimal digits of a number (`[]` for `0`). -/
def decDigits (n : Nat) : List Nat := digitsLE n n

/-- The characters of Python `str(n)` for `n > 0`: most-significant digit
first; `[]` for `0` (the difference is absorbed by the zero padding below). -/
def decimalChars (n : Nat) : List Char :=
  ((decDigits n).map Nat.digitChar).reverse

/-- Python `str(n).zfill(w)`: left-pad the decimal representation with `'0'`
to width `w`. -/
def zfillChars (w n : Nat) : List Char :=
  List.replicate (w - (decimalChars n).length) '0' ++ decimalChars n

/-- Embedding of `MSISDNGenerator` (`random_generators.py` lines 125-151):
country code, prefix list, per-number digit count, seed, and the pool
`__available` of `(number, prefix_index)` rows still available; `__init__`
fills one block of `maxnumber = 10**length - 1` numbers per prefix. -/
structure MSISDNGenerator where
  cc : String
  prefs : List String
  length : Nat
  seed : Option Nat
  available : List (Nat × Nat)
deriving DecidableEq, Repr

/-- The constructor of `MSISDNGenerator` (`random_generators.py` lines
130-151). -/
def mkMSISDNGenerator (countrycode : String) (prefix_list : List String)
    (length : Nat) (seed : Option Nat) : MSISDNGenerator :=
  let maxnumber := 10 ^ length - 1
  { cc := countrycode
    prefs := prefix_list
    length := length
    seed := seed
    available := (List.range prefix_list.length).flatMap
      (fun i => (List.range maxnumber).map (fun n => (n, i))) }

/-- The string built for one pool entry (`random_generators.py` lines
166-169): `cc + prefix_list[entry[1]] + str(entry[0]).zfill(length)`. -/
def msisdnOf (g : MSISDNGenerator) (entry : Nat × Nat) : String :=
  ⟨g.cc.data ++ (g.prefs.getD entry.2 "").data ++ zfillChars g.length entry.1⟩

/-- Embedding of `MSISDNGenerator.generate` (`random_generators.py` lines
153-174): draw `size` pool rows without replacement, render them, and
`np.delete` the drawn rows from the pool. The numpy `choice` sampler is
opaque (modelled from the spec as a without-replacement pool draw, here the
first `size` rows); with `replace=False` it raises `ValueError` when `size`
exceeds the pool, before any value is returned. -/
def MSISDNGenerator.generate (g : MSISDNGenerator) (size : Nat) :
    Except PyError (List String × MSISDNGenerator) :=
  if size > g.available.length then .error PyError.valueErrorSampleTooLarge
  else
    let generated_entries := g.available.take size
    let msisdns := generated_entries.map (msisdnOf g)
    .ok (msisdns, { g with available := g.available.drop size })

/-- A sequence of `generate` calls on one `MSISDNGenerator`, returning all
values produced in order. -/
def runMSISDNCalls : MSISDNGenerator → List Nat → Except PyError (List String × MSISDNGenerator)
  | g, [] => .ok ([], g)
  | g, k :: ks =>
    match g.generate k with
    | .error err => .error err
    | .ok (out, g2) =>
      match runMSISDNCalls g2 ks with
      | .error err => .error err
      | .ok (rest, g3) => .ok (out ++ rest, g3)

/-- C1: for every `ActorAction`, the pipeline executed on each iteration is
exactly a `WhoActsNow` stage, then the user-supplied operations in their
given order, then a `ResetTimers` over the acting set (no id field
configured, so it resets the frame's index), then the internal
`_MaybeBackToNormal` stage last (`action.py` lines 64-68). -/
theorem claim1_pipeline_assembly (name : String) (triggering_ids : List ActorId)
    (actorid_field : String) (user_operations : List PipeOp) (activity : IndepGen)
    (states : List (String × StateGens)) (timer_gen : TimerGen) :
    (mkActorAction name triggering_ids actorid_field user_operations activity states
        timer_gen).operations =
      [PipeOp.whoActsNow] ++ user_operations ++
        [PipeOp.resetTimersOp none, PipeOp.maybeBackToNormalOp] := rfl

/-- C2: the frame built by the initial `WhoActsNow` stage has exactly the
actors whose remaining timer is `0` (one row each when the timer table has no
duplicate ids), in the actor-ID column named by `actorid_field_name`, with
those ids also kept as the row index (`action.py` lines 95-99 and 183-191). -/
theorem claim2_who_acts_now_frame (a : ActorAction) (input : Frame)
    (hnodup : (a.timer.map Prod.fst).Nodup) :
    (whoActsNow_transform a input).cols =
        [(a.actoridFieldName, a.who_acts_now.map some)] ∧
    (whoActsNow_transform a input).index = a.who_acts_now ∧
    (∀ id, id ∈ (whoActsNow_transform a input).index ↔
        ∃ r, (id, r) ∈ a.timer ∧ r.remaining = 0) ∧
    (whoActsNow_transform a input).index.Nodup := by
  refine ⟨rfl, rfl, ?_, ?_⟩
  · intro id
    simp only [whoActsNow_transform, ActorAction.who_acts_now, List.mem_map, List.mem_filter,
      beq_iff_eq]
    constructor
    · rintro ⟨⟨i, r⟩, ⟨hmem, hrem⟩, hfst⟩
      exact ⟨r, by simpa [← hfst] using hmem, by simpa using hrem⟩
    · rintro ⟨r, hmem, hrem⟩
      exact ⟨(id, r), ⟨hmem, by simpa using hrem⟩, rfl⟩
  · have hsub : List.Sublist ((a.timer.filter (fun p => p.2.remaining == 0)).map Prod.fst)
        (a.timer.map Prod.fst) :=
      List.Sublist.map Prod.fst (List.filter_sublist a.timer)
    exact hnodup.sublist hsub

/-- Concrete action used by several witnesses: two actors, constant activity,
a timer sampler that always draws 3 ticks. -/
def actW : ActorAction :=
  mkActorAction "w" [0, 1] "ACTOR_ID" [] (ConstantGenerator 1) [] (ConstantProfiler 3)

/-- Witness for C2 at a concrete two-actor action whose timers were just
reset to 3: the hypothesis (no duplicate ids) holds and the built frame is as
the theorem states. -/
theorem claim2_witness :
    (actW.timer.map Prod.fst).Nodup ∧
    (whoActsNow_transform actW emptyFrame).index = actW.who_acts_now :=
  ⟨by decide, (claim2_who_acts_now_frame actW emptyFrame (by decide)).2.1⟩

/-- C10: `force_act_next` with an empty id collection, and the
`ForceActNext` side effect on a frame with zero rows or with an all-null
addressed column, leave the action — in particular its whole timer table,
states and remaining values — unchanged (`action.py` lines 107-114 and
199-204). -/
theorem claim10_force_act_next_noop (a : ActorAction) (active_ids_field : String)
    (action_data : Frame) :
    (a.force_act_next [] = a) ∧
    (action_data.index.length = 0 → forceActNext_side_effect a active_ids_field action_data = a) ∧
    ((∀ c ∈ action_data.colVals active_ids_field, c = none) →
      forceActNext_side_effect a active_ids_field action_data = a) := by
  refine ⟨rfl, ?_, ?_⟩
  · intro h0
    simp [forceActNext_side_effect, h0]
  · intro hnull
    have hdrop : action_data.colDropna active_ids_field = [] := by
      unfold Frame.colDropna
      rw [List.filterMap_eq_nil_iff]
      intro c hc
      simp [hnull c hc]
    unfold forceActNext_side_effect
    rw [hdrop]
    split <;> rfl

/-- Witness for C10 at a concrete action and two concrete frames: one with
zero rows, one whose addressed column holds only nulls. -/
theorem claim10_witness :
    actW.force_act_next [] = actW ∧
    forceActNext_side_effect actW "X" emptyFrame = actW ∧
    forceActNext_side_effect actW "X"
      { index := [0], cols := [("X", [none])] } = actW :=
  ⟨(claim10_force_act_next_noop actW "X" emptyFrame).1,
   (claim10_force_act_next_noop actW "X" emptyFrame).2.1 rfl,
   (claim10_force_act_next_noop actW "X" { index := [0], cols := [("X", [none])] }).2.2
     (by decide)⟩

/-- C3: whenever `execute()` returns, the action state it leaves behind is
the post-pipeline state with `timer_tick` applied: every actor whose
remaining value was strictly positive after the fold is decremented by
exactly 1, every other actor's remaining value is left unchanged by this
step (`action.py` lines 101-105 and 158-159). -/
theorem claim3_execute_decrements (a : ActorAction) (entropy : Nat → Rat)
    (res : ExecuteResult) (a2 : ActorAction)
    (hex : a.execute entropy = (.ok res, a2)) :
    a2.timer = ((runPipeline entropy a.operations emptyFrame [] a).2).timer.map
      (fun p => if p.2.remaining > 0
        then (p.1, { p.2 with remaining := p.2.remaining - 1 }) else p) := by
  rcases hrp : runPipeline entropy a.operations emptyFrame [] a with ⟨r, a1⟩
  unfold ActorAction.execute at hex
  rw [hrp] at hex
  rcases r with err | ⟨fr, lg⟩
  · simp [executePost] at hex
  · simp only [executePost] at hex
    by_cases h0 : ((logKeys lg).length == 0) = true
    · rw [if_pos h0] at hex
      have := congrArg Prod.snd hex
      simp only at this
      rw [← this]
      rfl
    · rw [if_neg h0] at hex
      by_cases h1 : (logKeys lg).length > 1
      · rw [if_pos h1] at hex
        exact absurd (congrArg Prod.fst hex) (by simp)
      · rw [if_neg h1] at hex
        have := congrArg Prod.snd hex
        simp only at this
        rw [← this]
        rfl

/-- An entropy stream used by concrete evaluations. -/
def entropyZ : Nat → Rat := fun _ => 0

/-- The pipeline fold of the witness action `actW`. -/
def runW : (Except PyError (Frame × Logs)) × ActorAction :=
  runPipeline entropyZ actW.operations emptyFrame [] actW

/-- Witness for C3: on the concrete action `actW` (all timers 3, nobody
acts), `execute` succeeds and the final timers are the mapped decrement of
the post-fold timers. -/
theorem claim3_witness :
    ((actW.execute entropyZ).2).timer = (runW.2).timer.map
      (fun p => if p.2.remaining > 0
        then (p.1, { p.2 with remaining := p.2.remaining - 1 }) else p) :=
  claim3_execute_decrements actW entropyZ ExecuteResult.emptyFrame
    ((actW.execute entropyZ).2) rfl

/-- The failing input of C4: one actor with an always-zero timer sampler and
a declared `excited` state with back-to-normal probability 1/2; the actor is
transited to `excited`, so it acts on the next tick while not `normal`. -/
def actC4 : ActorAction :=
  (mkActorAction "c4" [0] "ACTOR_ID" [] (ConstantGenerator 1)
    [("excited", { activity := ConstantGenerator 9,
                   back_to_normal_probability := ConstantGenerator (1/2) })]
    (ConstantProfiler 0)).transit_to_state [0] ["excited"]

/-- C4 (code bug): executing the action on a tick where a non-`normal` actor
acts does not set any state back to `normal`; it raises `TypeError`, because
`_MaybeBackToNormal.side_effect` calls
`transit_to_state(ids=actor_ids, state=state)` while the parameter of
`transit_to_state` is named `states` (`action.py` lines 88 and 278). Here
`back_to_normal_probability = 1/2 > 0 = u`, so the claim (and the method's
own purpose) requires a transition to `normal`; the code errors instead. -/
theorem claim4_keyword_typeerror :
    (actC4.execute entropyZ).1 = .error PyError.typeErrorUnexpectedKeyword ∧
    maybeBackToNormal_side_effect actC4 entropyZ (whoActsNow_transform actC4 emptyFrame) =
      .error PyError.typeErrorUnexpectedKeyword := by
  exact ⟨rfl, rfl⟩

/-- The failing input of C5: two actors `0, 1`; actor `1` is in state
`excited`, whose activity for actor `1` is 9 while its `normal` activity
is 1. -/
def actC5 : ActorAction :=
  (mkActorAction "c5" [0, 1] "ACTOR_ID" [] (fromListGen [1, 1])
    [("excited", { activity := fromListGen [5, 9],
                   back_to_normal_probability := ConstantGenerator 1 })]
    (ConstantProfiler 5)).transit_to_state [1] ["excited"]

/-- C5 (code bug): `get_param("activity", [1])` pairs the requested id `1`
positionally with the state column of *all* actors
(`zip(ids, self.timer["state"])`, `action.py` line 79), so actor `1` is
paired with actor `0`'s state `normal` and gets activity 1 — although actor
`1`'s own current state is `excited`, whose activity is 9, which is what the
claim (and the docstring of `get_param`, `action.py` lines 74-75) requires
for any subset of the population. -/
theorem claim5_wrong_state_pairing :
    actC5.get_param "activity" [1] = [(1, 1)] ∧
    actC5.paramAt "activity" "excited" 1 = 9 ∧
    (actC5.timer.find? (fun p => p.1 == 1)).map (fun p => p.2.state) = some "excited" := by
  exact ⟨by decide, by decide, by decide⟩

/-- C6: after a successful pipeline fold, `execute()` returns an empty frame
when no log name was collected, raises when more than one distinct log name
was emitted, and therefore at most one log name is ever populated by an
action (`action.py` lines 161-169). -/
theorem claim6_single_logger (a : ActorAction) (entropy : Nat → Rat)
    (fr : Frame) (lg : Logs) (a1 : ActorAction)
    (hrun : runPipeline entropy a.operations emptyFrame [] a = (.ok (fr, lg), a1)) :
    ((logKeys lg).length = 0 →
      a.execute entropy = (.ok ExecuteResult.emptyFrame, a1.timer_tick)) ∧
    (1 < (logKeys lg).length →
      a.execute entropy = (.error PyError.notImplementedMultipleLogs, a1.timer_tick)) ∧
    (∀ lgs a2, a.execute entropy = (.ok (ExecuteResult.logBag lgs), a2) →
      (logKeys lgs).length = 1) := by
  refine ⟨?_, ?_, ?_⟩
  · intro h0
    unfold ActorAction.execute
    rw [hrun]
    simp [executePost, h0]
  · intro h1
    unfold ActorAction.execute
    rw [hrun]
    have h0 : ¬(((logKeys lg).length == 0) = true) := by
      simp only [beq_iff_eq]
      omega
    simp only [executePost, if_neg h0, if_pos h1]
  · intro lgs a2 hex
    unfold ActorAction.execute at hex
    rw [hrun] at hex
    simp only [executePost] at hex
    by_cases h0 : ((logKeys lg).length == 0) = true
    · rw [if_pos h0] at hex
      exact absurd (congrArg Prod.fst hex) (by simp)
    · rw [if_neg h0] at hex
      by_cases h1 : (logKeys lg).length > 1
      · rw [if_pos h1] at hex
        exact absurd (congrArg Prod.fst hex) (by simp)
      · rw [if_neg h1] at hex
        have hfst := congrArg Prod.fst hex
        simp only [Except.ok.injEq, ExecuteResult.logBag.injEq] at hfst
        rw [← hfst]
        simp only [beq_iff_eq] at h0
        omega

/-- Witness for C6: on the concrete action `actW` the fold succeeds with an
empty log bag, and `execute` returns the empty-frame result. -/
theorem claim6_witness :
    actW.execute entropyZ = (.ok ExecuteResult.emptyFrame, runW.2.timer_tick) :=
  (claim6_single_logger actW entropyZ
      (runW.1.toOption.getD (emptyFrame, [])).1
      (runW.1.toOption.getD (emptyFrame, [])).2
      runW.2 rfl).1 rfl

/-- An action built with all the constructor defaults, in particular the
default `timer_gen=ConstantProfiler(-1)` (`action.py` line 12). -/
def actC7 : ActorAction := mkActorActionDefault "c7" [0] "ACTOR_ID" []

/-- Counterexample to C7: immediately after construction with the default
timer generator, the single actor's remaining timer is `-1`, which is
negative — so it is not the case that the remaining timer is always at least
0, nor between 0 and the maximum the sampler can draw. -/
theorem claim7_counterexample :
    actC7.timer = [(0, { state := "normal", remaining := -1 })] ∧ ¬(0 ≤ (-1 : Int)) := by
  exact ⟨by decide, by decide⟩

/-- Membership bound for `assignRemaining`: if every row of the table and
every assigned value satisfy `P`, every row of the result does. -/
theorem assignRemaining_mem_bound (P : Int → Prop) (ids : List ActorId) (vals : List Int)
    (t : TimerTbl) (ht : ∀ p ∈ t, P p.2.remaining) (hv : ∀ v ∈ vals, P v) :
    ∀ p ∈ assignRemaining t ids vals, P p.2.remaining := by
  unfold assignRemaining
  have key : ∀ (prs : List (ActorId × Int)), (∀ pr ∈ prs, P pr.2) →
      ∀ (t2 : TimerTbl), (∀ p ∈ t2, P p.2.remaining) →
      ∀ p ∈ prs.foldl (fun t3 pr => t3.map (fun p =>
        if p.1 == pr.1 then (p.1, { p.2 with remaining := pr.2 }) else p)) t2,
        P p.2.remaining := by
    intro prs
    induction prs with
    | nil =>
      intro _ t2 ht2 p hp
      exact ht2 p hp
    | cons hd tl ih =>
      intro hprs t2 ht2 p hp
      rw [List.foldl_cons] at hp
      refine ih (fun pr hpr => hprs pr (List.mem_cons_of_mem _ hpr)) _ ?_ p hp
      intro q hq
      simp only [List.mem_map] at hq
      obtain ⟨q0, hq0, rfl⟩ := hq
      by_cases hb : (q0.1 == hd.1) = true
      · simpa [hb] using hprs hd (List.mem_cons_self _ _)
      · simpa [hb] using ht2 q0 hq0
  refine key (ids.zip vals) ?_ t ht
  intro pr hpr
  obtain ⟨x, y⟩ := pr
  exact hv y (List.of_mem_zip hpr).2

/-- C7 amended: the invariant `0 ≤ remaining ≤ M` holds across every
timer-affecting primitive of the action — `timer_tick`, `force_act_next` and
`reset_timers` — provided the timer sampler only emits values in `[0, M]`;
with the default `ConstantProfiler(-1)` (which emits `-1`) the invariant
fails already at construction (see the counterexample). -/
theorem claim7_amended_timer_bounds (M : Int) (hM : 0 ≤ M) (a : ActorAction)
    (hgen : ∀ ws : List Rat, ∀ v ∈ a.time_generator.sample ws, 0 ≤ v ∧ v ≤ M)
    (hinv : ∀ p ∈ a.timer, 0 ≤ p.2.remaining ∧ p.2.remaining ≤ M) :
    (∀ p ∈ a.timer_tick.timer, 0 ≤ p.2.remaining ∧ p.2.remaining ≤ M) ∧
    (∀ ids, ∀ p ∈ (a.force_act_next ids).timer, 0 ≤ p.2.remaining ∧ p.2.remaining ≤ M) ∧
    (∀ optIds, ∀ p ∈ (a.reset_timers optIds).timer, 0 ≤ p.2.remaining ∧ p.2.remaining ≤ M) := by
  refine ⟨?_, ?_, ?_⟩
  · intro p hp
    simp only [ActorAction.timer_tick, List.mem_map] at hp
    obtain ⟨q, hq, rfl⟩ := hp
    have := hinv q hq
    by_cases hpos : q.2.remaining > 0
    · simp only [hpos, if_pos]
      constructor <;> simp <;> omega
    · simp only [hpos, if_neg, not_false_iff]
      exact this
  · intro ids p hp
    unfold ActorAction.force_act_next at hp
    by_cases hlen : ids.length > 0
    · rw [if_pos hlen] at hp
      simp only [List.mem_map] at hp
      obtain ⟨q, hq, rfl⟩ := hp
      by_cases hin : q.1 ∈ ids
      · simpa [hin] using hM
      · simpa [hin] using hinv q hq
    · rw [if_neg hlen] at hp
      exact hinv p hp
  · intro optIds p hp
    unfold ActorAction.reset_timers at hp
    by_cases hlen : (optIds.getD (a.timer.map Prod.fst)).length > 0
    · rw [if_pos hlen] at hp
      simp only at hp
      refine assignRemaining_mem_bound (fun v => 0 ≤ v ∧ v ≤ M) _ _ a.timer hinv ?_ p hp
      intro v hv
      exact hgen _ v hv
    · rw [if_neg hlen] at hp
      exact hinv p hp

/-- Witness for C7 amended, at `actW` (timer sampler constantly 3, `M = 3`):
the hypotheses hold and the three primitives keep every remaining value in
`[0, 3]`. -/
theorem claim7_amended_witness :
    (∀ p ∈ actW.timer, 0 ≤ p.2.remaining ∧ p.2.remaining ≤ 3) ∧
    (∀ p ∈ actW.timer_tick.timer, 0 ≤ p.2.remaining ∧ p.2.remaining ≤ 3) := by
  have htg : actW.time_generator = ConstantProfiler 3 := rfl
  have hgen : ∀ ws : List Rat, ∀ v ∈ actW.time_generator.sample ws, 0 ≤ v ∧ v ≤ (3 : Int) := by
    intro ws v hv
    rw [htg] at hv
    simp only [ConstantProfiler, List.mem_map] at hv
    obtain ⟨_, _, rfl⟩ := hv
    exact ⟨by omega, by omega⟩
  have hinv : ∀ p ∈ actW.timer, 0 ≤ p.2.remaining ∧ p.2.remaining ≤ (3 : Int) := by decide
  exact ⟨hinv, (claim7_amended_timer_bounds 3 (by omega) actW hgen hinv).1⟩

/-- The judge survives every state update of the action. -/
theorem reset_timers_judge (a : ActorAction) (optIds : Option (List ActorId)) :
    (a.reset_timers optIds).judge = a.judge := by
  simp only [ActorAction.reset_timers]
  split <;> rfl

/-- The back-to-normal judge of every constructed action is unseeded:
`_MaybeBackToNormal.__init__` calls `NumpyRandomGenerator(method="uniform")`
with no `seed` argument (`action.py` line 258), so no seed from the seed
provider ever reaches it. -/
theorem mkActorAction_judge_unseeded (name : String) (triggering_ids : List ActorId)
    (actorid_field : String) (operations : List PipeOp) (activity : IndepGen)
    (states : List (String × StateGens)) (timer_gen : TimerGen) :
    (mkActorAction name triggering_ids actorid_field operations activity states
        timer_gen).judge = { method := "uniform", seed := none } := by
  unfold mkActorAction
  rw [reset_timers_judge]

/-- One pipeline step does not depend on the entropy stream: the only stage
that reads it is `_MaybeBackToNormal`, whose uniform draw is either not made
(all acting actors `normal`) or discarded when the ill-named keyword call
raises `TypeError`. -/
theorem stepOp_entropy_irrelevant (fr : Frame) (lg : Logs) (a : ActorAction)
    (op : PipeOp) (e1 e2 : Nat → Rat) :
    stepOp e1 fr lg a op = stepOp e2 fr lg a op := by
  cases op <;> simp [stepOp, maybeBackToNormal_side_effect]

/-- The whole pipeline fold does not depend on the entropy stream. -/
theorem runPipeline_entropy_irrelevant (ops : List PipeOp) :
    ∀ (fr : Frame) (lg : Logs) (a : ActorAction) (e1 e2 : Nat → Rat),
      runPipeline e1 ops fr lg a = runPipeline e2 ops fr lg a := by
  induction ops with
  | nil =>
    intro fr lg a e1 e2
    rfl
  | cons op rest ih =>
    intro fr lg a e1 e2
    simp only [runPipeline]
    rw [stepOp_entropy_irrelevant fr lg a op e1 e2]
    rcases hs : stepOp e2 fr lg a op with ⟨r, a2⟩
    rcases r with err | ⟨fr2, lg2⟩
    · rfl
    · exact ih fr2 lg2 a2 e1 e2

/-- C8 amended: in every constructed action, the internal back-to-normal
judge is created *unseeded* (its seed is `None`, not a value from the seed
provider) — but the result of `execute` does not depend on the OS entropy the
unseeded judge reads, because the judge's draw is consumed only by the
`transit_to_state` call that raises `TypeError` before using it; all other
samplers are plain functions fixed at construction. Hence two runs with the
same construction inputs still produce identical results. -/
theorem claim8_amended_determinism (name : String) (triggering_ids : List ActorId)
    (actorid_field : String) (operations : List PipeOp) (activity : IndepGen)
    (states : List (String × StateGens)) (timer_gen : TimerGen) :
    (mkActorAction name triggering_ids actorid_field operations activity states
        timer_gen).judge.seed = none ∧
    (∀ e1 e2 : Nat → Rat,
      (mkActorAction name triggering_ids actorid_field operations activity states
          timer_gen).execute e1 =
        (mkActorAction name triggering_ids actorid_field operations activity states
          timer_gen).execute e2) := by
  constructor
  · rw [mkActorAction_judge_unseeded]
  · intro e1 e2
    unfold ActorAction.execute
    rw [runPipeline_entropy_irrelevant _ _ _ _ e1 e2]

/-- Counterexample to C8 as stated: the judge of a concrete constructed
action has no seed, and its uniform draw differs between two runs whose OS
entropy differs — so not every source of randomness is determined by seeds
fixed at construction from the seed provider. -/
theorem claim8_counterexample :
    actW.judge.seed = none ∧
    actW.judge.generate (fun _ => 0) 1 ≠ actW.judge.generate (fun _ => 1) 1 := by
  exact ⟨rfl, by decide⟩

/-- The numeric value of a list of decimal digit characters (most-significant
first); leading `'0'` padding does not change it. -/
def decValue (l : List Char) : Nat :=
  l.foldl (fun acc c => 10 * acc + (c.toNat - 48)) 0

/-- The fueled digit function agrees with `Nat.digits 10` once the fuel
dominates the number. -/
theorem digitsLE_eq_digits : ∀ (fuel n : Nat), n ≤ fuel → digitsLE fuel n = Nat.digits 10 n := by
  intro fuel
  induction fuel with
  | zero =>
    intro n hn
    have h0 : n = 0 := by omega
    subst h0
    simp [digitsLE]
  | succ f ih =>
    intro n hn
    by_cases h0 : n = 0
    · subst h0
      simp [digitsLE]
    · have hdiv : n / 10 ≤ f := by
        have := Nat.div_lt_self (Nat.pos_of_ne_zero h0) (by omega : 1 < 10)
        omega
      rw [digitsLE, if_neg h0, ih (n / 10) hdiv,
        Nat.digits_def' (by omega : 1 < 10) (Nat.pos_of_ne_zero h0)]

/-- `decDigits` is `Nat.digits 10`. -/
theorem decDigits_eq_digits (n : Nat) : decDigits n = Nat.digits 10 n :=
  digitsLE_eq_digits n n (le_refl n)

/-- Folding the decimal evaluation over a block of `'0'` characters keeps the
accumulator at 0. -/
theorem foldl_decValue_replicate_zero (k : Nat) :
    List.foldl (fun acc c => 10 * acc + (c.toNat - 48)) 0 (List.replicate k '0') = 0 := by
  induction k with
  | zero => rfl
  | succ m ih => simpa [List.replicate_succ] using ih

/-- Leading `'0'` padding does not change the decimal value. -/
theorem decValue_replicate_zero_append (k : Nat) (l : List Char) :
    decValue (List.replicate k '0' ++ l) = decValue l := by
  unfold decValue
  rw [List.foldl_append, foldl_decValue_replicate_zero]

/-- Character-level round trip for a single decimal digit. -/
theorem digitChar_toNat_sub (d : Nat) (hd : d < 10) : (Nat.digitChar d).toNat - 48 = d := by
  interval_cases d <;> rfl

/-- Evaluating the rendered (most-significant-first) digit characters of a
digit list recovers `Nat.ofDigits 10`. -/
theorem decValue_digitChars : ∀ (L : List Nat), (∀ d ∈ L, d < 10) →
    decValue ((L.map Nat.digitChar).reverse) = Nat.ofDigits 10 L := by
  intro L
  induction L with
  | nil =>
    intro
    simp [decValue, Nat.ofDigits]
  | cons d rest ih =>
    intro hlt
    rw [List.map_cons, List.reverse_cons]
    unfold decValue
    rw [List.foldl_append]
    have hrest := ih (fun x hx => hlt x (List.mem_cons_of_mem _ hx))
    unfold decValue at hrest
    rw [hrest]
    simp only [List.foldl_cons, List.foldl_nil]
    rw [digitChar_toNat_sub d (hlt d (List.mem_cons_self _ _))]
    rw [Nat.ofDigits_cons]
    ring

/-- Evaluating `str(n).zfill(w)` recovers `n`. -/
theorem decValue_zfillChars (w n : Nat) : decValue (zfillChars w n) = n := by
  unfold zfillChars
  rw [decValue_replicate_zero_append]
  unfold decimalChars
  rw [decDigits_eq_digits]
  rw [decValue_digitChars _ (fun d hd => Nat.digits_lt_base (by omega) hd)]
  exact Nat.ofDigits_digits 10 n

/-- Zero-padded decimal rendering is injective. -/
theorem zfillChars_inj (w n1 n2 : Nat) (h : zfillChars w n1 = zfillChars w n2) : n1 = n2 := by
  have := congrArg decValue h
  rwa [decValue_zfillChars, decValue_zfillChars] at this

/-- `str(n).zfill(w)` has exactly `w` characters when `n < 10 ^ w`. -/
theorem zfillChars_length (w n : Nat) (hn : n < 10 ^ w) : (zfillChars w n).length = w := by
  unfold zfillChars
  rw [List.length_append, List.length_replicate]
  have hlen : (decimalChars n).length ≤ w := by
    unfold decimalChars
    rw [List.length_reverse, List.length_map, decDigits_eq_digits]
    by_cases h0 : n = 0
    · subst h0
      simp
    · have h1 := Nat.base_pow_length_digits_le 10 n (by omega) h0
      have h2 : (10 : Nat) ^ (Nat.digits 10 n).length < 10 ^ (w + 1) := by
        calc (10 : Nat) ^ (Nat.digits 10 n).length ≤ 10 * n := h1
        _ < 10 * 10 ^ w := by omega
        _ = 10 ^ (w + 1) := by ring
      have := (Nat.pow_lt_pow_iff_right (by omega : 1 < 10)).mp h2
      omega
  omega

/-- Two pool entries with in-range number and prefix index render to the same
MSISDN string only if they are equal, provided the prefix list has no
duplicate entries. -/
theorem msisdnOf_inj (g : MSISDNGenerator) (hnodup : g.prefs.Nodup)
    (e1 e2 : Nat × Nat) (h1n : e1.1 < 10 ^ g.length) (h2n : e2.1 < 10 ^ g.length)
    (h1p : e1.2 < g.prefs.length) (h2p : e2.2 < g.prefs.length)
    (heq : msisdnOf g e1 = msisdnOf g e2) : e1 = e2 := by
  unfold msisdnOf at heq
  have hdata : g.cc.data ++ (g.prefs.getD e1.2 "").data ++ zfillChars g.length e1.1 =
      g.cc.data ++ (g.prefs.getD e2.2 "").data ++ zfillChars g.length e2.1 :=
    congrArg String.data heq
  have hz : (zfillChars g.length e1.1).length = (zfillChars g.length e2.1).length := by
    rw [zfillChars_length _ _ h1n, zfillChars_length _ _ h2n]
  obtain ⟨hcp, hzeq⟩ := List.append_inj' hdata hz
  have hp : (g.prefs.getD e1.2 "").data = (g.prefs.getD e2.2 "").data :=
    List.append_cancel_left hcp
  have hps : g.prefs.getD e1.2 "" = g.prefs.getD e2.2 "" := String.ext hp
  have hg1 : g.prefs.getD e1.2 "" = g.prefs[e1.2] := by
    rw [List.getD_eq_getElem?_getD, List.getElem?_eq_getElem h1p]
    rfl
  have hg2 : g.prefs.getD e2.2 "" = g.prefs[e2.2] := by
    rw [List.getD_eq_getElem?_getD, List.getElem?_eq_getElem h2p]
    rfl
  have hidx : e1.2 = e2.2 := by
    rw [hg1, hg2] at hps
    exact (hnodup.getElem_inj_iff).mp hps
  have hnum : e1.1 = e2.1 := zfillChars_inj g.length e1.1 e2.1 hzeq
  exact Prod.ext hnum hidx

/-- Every entry of the freshly built pool is in range: number below
`10 ^ length` and prefix index below the prefix count. -/
theorem mem_available_bounds (countrycode : String) (prefix_list : List String)
    (length : Nat) (seed : Option Nat) :
    ∀ e ∈ (mkMSISDNGenerator countrycode prefix_list length seed).available,
      e.1 < 10 ^ length ∧ e.2 < prefix_list.length := by
  intro e he
  unfold mkMSISDNGenerator at he
  simp only [List.mem_flatMap, List.mem_map, List.mem_range] at he
  obtain ⟨i, hi, n, hn, rfl⟩ := he
  have hp : 0 < (10 : Nat) ^ length := pow_pos (by omega) length
  exact ⟨by omega, hi⟩

/-- The freshly built pool has no duplicate `(number, prefix_index)` rows. -/
theorem available_nodup (countrycode : String) (prefix_list : List String)
    (length : Nat) (seed : Option Nat) :
    (mkMSISDNGenerator countrycode prefix_list length seed).available.Nodup := by
  unfold mkMSISDNGenerator
  simp only []
  rw [List.nodup_flatMap]
  constructor
  · intro i _
    refine (List.nodup_range _).map ?_
    intro n1 n2 h
    exact (Prod.mk.injEq .. ▸ h).1
  · refine (List.pairwise_lt_range _).imp ?_
    intro i j hij
    intro x hxi hxj
    simp only [List.mem_map, List.mem_range] at hxi hxj
    obtain ⟨n1, _, rfl⟩ := hxi
    obtain ⟨n2, _, h2⟩ := hxj
    have : j = i := (Prod.mk.injEq .. ▸ h2).2
    omega

/-- With pairwise-distinct prefixes, the strings of the freshly built pool
are pairwise distinct. -/
theorem available_strings_nodup (countrycode : String) (prefix_list : List String)
    (length : Nat) (seed : Option Nat) (hnodup : prefix_list.Nodup) :
    ((mkMSISDNGenerator countrycode prefix_list length seed).available.map
      (msisdnOf (mkMSISDNGenerator countrycode prefix_list length seed))).Nodup := by
  refine List.Nodup.map_on ?_ (available_nodup countrycode prefix_list length seed)
  intro x hx y hy hxy
  obtain ⟨hx1, hx2⟩ := mem_available_bounds countrycode prefix_list length seed x hx
  obtain ⟨hy1, hy2⟩ := mem_available_bounds countrycode prefix_list length seed y hy
  exact msisdnOf_inj _ hnodup x y hx1 hy1 hx2 hy2 hxy

/-- The strings still available from a generator state. -/
def remStrings (g : MSISDNGenerator) : List String := g.available.map (msisdnOf g)

/-- Destructor for a successful `generate` call. -/
theorem generate_ok (g : MSISDNGenerator) (k : Nat) (out : List String)
    (g2 : MSISDNGenerator) (h : g.generate k = .ok (out, g2)) :
    out = (g.available.take k).map (msisdnOf g) ∧
    g2 = { g with available := g.available.drop k } := by
  unfold MSISDNGenerator.generate at h
  by_cases hk : k > g.available.length
  · rw [if_pos hk] at h
    exact absurd h (by simp)
  · rw [if_neg hk] at h
    simp only [Except.ok.injEq, Prod.mk.injEq] at h
    exact ⟨h.1.symm, h.2.symm⟩

/-- One successful `generate` call splits the available strings: the emitted
values followed by the remaining pool's strings are exactly the previous
pool's strings. -/
theorem generate_strings_eq (g : MSISDNGenerator) (k : Nat) (out : List String)
    (g2 : MSISDNGenerator) (h : g.generate k = .ok (out, g2)) :
    out ++ remStrings g2 = remStrings g := by
  obtain ⟨ho, hg2⟩ := generate_ok g k out g2 h
  subst hg2
  subst ho
  unfold remStrings
  have hms : msisdnOf { g with available := g.available.drop k } = msisdnOf g := by
    funext e
    rfl
  simp only [hms]
  rw [← List.map_append, List.take_append_drop]

/-- Across any successful sequence of `generate` calls, the emitted values
followed by the final pool's strings are the initial pool's strings. -/
theorem runMSISDNCalls_strings_eq : ∀ (sizes : List Nat) (g : MSISDNGenerator)
    (out : List String) (g3 : MSISDNGenerator),
    runMSISDNCalls g sizes = .ok (out, g3) → out ++ remStrings g3 = remStrings g := by
  intro sizes
  induction sizes with
  | nil =>
    intro g out g3 h
    simp only [runMSISDNCalls, Except.ok.injEq, Prod.mk.injEq] at h
    rw [← h.1, ← h.2]
    simp
  | cons k ks ih =>
    intro g out g3 h
    simp only [runMSISDNCalls] at h
    rcases hg : g.generate k with err | og
    · rw [hg] at h
      exact absurd h (by simp)
    · obtain ⟨o1, g2⟩ := og
      rw [hg] at h
      dsimp only at h
      rcases hr : runMSISDNCalls g2 ks with err2 | rg
      · rw [hr] at h
        exact absurd h (by simp)
      · obtain ⟨rest, g4⟩ := rg
        rw [hr] at h
        simp only [Except.ok.injEq, Prod.mk.injEq] at h
        obtain ⟨hout, hg3⟩ := h
        rw [← hout, ← hg3, List.append_assoc, ih g2 rest g4 hr]
        exact generate_strings_eq g k o1 g2 hg

/-- C9 amended: when the prefix list has pairwise-distinct entries, all
MSISDN values returned across any successful sequence of `generate` calls are
pairwise distinct (within each call and across calls — chosen pool rows are
removed before the call returns); and any call whose `size` exceeds the
current pool errors out instead of returning values. Without the
distinct-prefix proviso the claim fails (see the counterexample). -/
theorem claim9_amended_msisdn_unique (countrycode : String) (prefix_list : List String)
    (length : Nat) (seed : Option Nat) (sizes : List Nat) (out : List String)
    (gEnd : MSISDNGenerator) (hnodup : prefix_list.Nodup)
    (hrun : runMSISDNCalls (mkMSISDNGenerator countrycode prefix_list length seed) sizes =
      .ok (out, gEnd)) :
    out.Nodup ∧
    (∀ (g : MSISDNGenerator) (size : Nat), g.available.length < size →
      g.generate size = .error PyError.valueErrorSampleTooLarge) := by
  constructor
  · have h1 := runMSISDNCalls_strings_eq sizes _ out gEnd hrun
    have h2 : (remStrings (mkMSISDNGenerator countrycode prefix_list length seed)).Nodup :=
      available_strings_nodup countrycode prefix_list length seed hnodup
    rw [← h1] at h2
    exact h2.of_append_left
  · intro g size hs
    unfold MSISDNGenerator.generate
    rw [if_pos (by omega)]

/-- The duplicate-prefix generator of the C9 counterexample. -/
def msisdnC9 : MSISDNGenerator := mkMSISDNGenerator "0" ["1", "1"] 1 none

/-- Counterexample to C9 as stated: with the duplicate prefix list
`["1", "1"]`, a single `generate` call over the full pool (18 rows) returns
values that are *not* pairwise distinct — entries `(n, 0)` and `(n, 1)`
render to the same string. -/
theorem claim9_counterexample :
    (msisdnC9.generate 18).map (fun pr => decide pr.1.Nodup) = Except.ok false := by
  rfl

/-- The concrete distinct-prefix generator and call sequence of the C9
witness, with the outcome extracted by projections. -/
def msisdnW : MSISDNGenerator := mkMSISDNGenerator "32" ["4", "7"] 1 none

/-- The two-call run of the C9 witness. -/
def msisdnWrun : Except PyError (List String × MSISDNGenerator) :=
  runMSISDNCalls msisdnW [2, 3]

/-- The values emitted by the witness run. -/
def msisdnWout : List String := (msisdnWrun.toOption.getD ([], msisdnW)).1

/-- The final generator state of the witness run. -/
def msisdnWend : MSISDNGenerator := (msisdnWrun.toOption.getD ([], msisdnW)).2

/-- Witness for C9 amended: a concrete two-call run with distinct prefixes
succeeds and its five values are pairwise distinct. -/
theorem claim9_witness :
    runMSISDNCalls msisdnW [2, 3] = .ok (msisdnWout, msisdnWend) ∧ msisdnWout.Nodup :=
  ⟨rfl, (claim9_amended_msisdn_unique "32" ["4", "7"] 1 none [2, 3] msisdnWout msisdnWend
      (by decide) rfl).1⟩
